import Mathlib

/-!
Shallow embedding of the two-region energy-system model
(`scripts/run_model.py`, class `TwoRegionEnergyModel`) and of the results
extraction of `scripts/messageix_final_working.py`
(class `FinalMessageIXEnergyModel.extract_results`).

Machine floats are embedded as exact rationals (`ℚ`); NumPy's globally
seeded random generator is embedded as an explicit state: a stream of
standard-normal draws determined by the seed, together with a position.
`np.random.seed(42)` resets the position to the start of the
seed-determined stream; `np.random.normal(mu, sigma)` consumes one draw.
-/

namespace EnergyModel

/-- Global NumPy RNG state: the seed-determined stream of standard-normal
draws and the current position in it. -/
structure RNG where
  stream : ℕ → ℚ
  pos : ℕ

/-- `np.random.seed(seed)`: the global RNG is reset to position 0 of the
stream determined by the seed. -/
def seedReset (stream : ℕ → ℚ) (_g : RNG) : RNG :=
  ⟨stream, 0⟩

/-- `np.random.normal(mu, sigma)`: consume one standard-normal draw. -/
def normal (mu sigma : ℚ) (g : RNG) : ℚ × RNG :=
  (mu + sigma * g.stream g.pos, ⟨g.stream, g.pos + 1⟩)

/-! ### Renewable profiles (`generate_renewable_profiles`, run_model.py 255-295) -/

/-- One hour of the wind profile: night hours (0-6, 20-24) have base factor
0.4, day hours 0.25; the factor `base * (1 + N(0, 0.3))` is clamped to
[0.05, 0.8] by `max(min(factor, 0.8), 0.05)`. -/
def windHourValue (hour : ℕ) (noise : ℚ) : ℚ :=
  let base_factor : ℚ := if hour ≤ 6 ∨ 20 ≤ hour then 4/10 else 25/100
  let factor := base_factor * (1 + noise)
  max (min factor (8/10)) (5/100)

/-- One hour of the solar profile: during daylight (6 ≤ hour ≤ 18) a
parabolic pattern `0.8 * (1 - |hour-12|/6)^2` with cloud noise
`(1 + N(0, 0.2))`, otherwise 0; clamped to [0, 0.9] by
`max(min(factor, 0.9), 0)`. -/
def solarHourValue (hour : ℕ) (noise : ℚ) : ℚ :=
  let factor : ℚ :=
    if 6 ≤ hour ∧ hour ≤ 18 then
      (8/10) * (1 - |(hour : ℚ) - 12| / 6) ^ 2 * (1 + noise)
    else 0
  max (min factor (9/10)) 0

/-- The wind loop of `generate_renewable_profiles`: one normal draw per
hour. -/
def windLoop (g : RNG) : List ℕ → List ℚ × RNG
  | [] => ([], g)
  | hour :: rest =>
    let n := normal 0 (3/10) g
    let tail := windLoop n.2 rest
    (windHourValue hour n.1 :: tail.1, tail.2)

/-- The solar loop of `generate_renewable_profiles`: a normal draw is
consumed only during daylight hours (the source calls `np.random.normal`
only inside the daylight branch). -/
def solarLoop (g : RNG) : List ℕ → List ℚ × RNG
  | [] => ([], g)
  | hour :: rest =>
    if 6 ≤ hour ∧ hour ≤ 18 then
      let n := normal 0 (2/10) g
      let tail := solarLoop n.2 rest
      (solarHourValue hour n.1 :: tail.1, tail.2)
    else
      let tail := solarLoop g rest
      (solarHourValue hour 0 :: tail.1, tail.2)

/-- `generate_renewable_profiles`: re-seeds the global RNG
(`np.random.seed(42)`), then fills the 24-hour wind profile and the
24-hour solar profile.  Returns `(wind_profile, solar_profile)`. -/
def generate_renewable_profiles (stream : ℕ → ℚ) (g0 : RNG) : List ℚ × List ℚ :=
  let g1 := seedReset stream g0
  let wind := windLoop g1 (List.range 24)
  let solar := solarLoop wind.2 (List.range 24)
  (wind.1, solar.1)

/-! ### Demand patterns (`generate_demand_patterns`, run_model.py 134-190) -/

/-- Industrial hourly loop: `demand = base * N(1.0, 0.05)`, floored at
`0.8 * base`. -/
def industrialLoop (industrial_base : ℚ) (g : RNG) : List ℕ → List ℚ × RNG
  | [] => ([], g)
  | _hour :: rest =>
    let variation := normal 1 (5/100) g
    let demand := industrial_base * variation.1
    let tail := industrialLoop industrial_base variation.2 rest
    (max demand (industrial_base * (8/10)) :: tail.1, tail.2)

/-- Residential hourly loop: a time-of-day multiplier (morning peak 6-9,
evening peak 17-21, night 22-24 and 0-5, else daytime), floored at 0.4,
times the efficiency-adjusted base.  `base_adjusted` is hour-independent
in the source and is hoisted out of the loop here. -/
def residentialLoop (base_adjusted : ℚ) (g : RNG) : List ℕ → List ℚ × RNG
  | [] => ([], g)
  | hour :: rest =>
    let multiplier : ℚ × RNG :=
      if 6 ≤ hour ∧ hour ≤ 9 then
        let n := normal 0 (1/10) g
        (14/10 + n.1, n.2)
      else if 17 ≤ hour ∧ hour ≤ 21 then
        let n := normal 0 (1/10) g
        (16/10 + n.1, n.2)
      else if (22 ≤ hour ∧ hour ≤ 24) ∨ hour ≤ 5 then
        let n := normal 0 (5/100) g
        (6/10 + n.1, n.2)
      else
        let n := normal 0 (1/10) g
        (1 + n.1, n.2)
    let demand := base_adjusted * max multiplier.1 (4/10)
    let tail := residentialLoop base_adjusted multiplier.2 rest
    (demand :: tail.1, tail.2)

/-- Per-year body of `generate_demand_patterns`: grow the 2025 bases by
`(1+growth_rate)^(year-start_year)`, fill the 24-hour industrial profile,
then the 24-hour residential profile (with the 0.5%-per-year efficiency
discount). -/
def demandYearsLoop (growth_rate ind0 res0 : ℚ) (start_year : ℤ) (g : RNG) :
    List ℤ → List (ℤ × List ℚ × List ℚ) × RNG
  | [] => ([], g)
  | year :: rest =>
    let growth_factor := (1 + growth_rate) ^ (year - start_year)
    let industrial_base := ind0 * growth_factor
    let residential_base := res0 * growth_factor
    let industrial := industrialLoop industrial_base g (List.range 24)
    let efficiency_improvement := (5/1000) * ((year : ℚ) - (start_year : ℚ))
    let base_adjusted := residential_base * (1 - efficiency_improvement)
    let residential := residentialLoop base_adjusted industrial.2 (List.range 24)
    let tail := demandYearsLoop growth_rate ind0 res0 start_year residential.2 rest
    ((year, industrial.1, residential.1) :: tail.1, tail.2)

/-- `generate_demand_patterns`: re-seeds the global RNG
(`np.random.seed(42)`), then produces, for each year of the configured
year list, the industrial and residential 24-hour demand profiles.
In the source the configuration is held in `self` (years, growth rate
0.023, bases 100 and 80, start year 2025); it is passed explicitly
here. -/
def generate_demand_patterns (years : List ℤ) (growth_rate ind0 res0 : ℚ)
    (start_year : ℤ) (stream : ℕ → ℚ) (g0 : RNG) :
    List (ℤ × List ℚ × List ℚ) :=
  let g1 := seedReset stream g0
  (demandYearsLoop growth_rate ind0 res0 start_year g1 years).1

/-! ### Technologies and the cost model (run_model.py 54-108 and 192-217) -/

/-- The four technologies of `self.technologies`. -/
inductive Tech where
  | natural_gas_plant
  | wind_turbine
  | solar_pv
  | lithium_battery
deriving DecidableEq, Repr

/-- The static per-technology parameter bundle (run_model.py 54-108). -/
structure TechParams where
  capacity_factor : ℚ
  efficiency : ℚ
  capex_2025 : ℚ
  opex_fixed : ℚ
  opex_variable : ℚ
  fuel_cost : ℚ
  co2_intensity : ℚ
  lifetime : ℕ
  learning_rate : ℚ

/-- The concrete `self.technologies` dictionary. -/
def technologies : Tech → TechParams
  | .natural_gas_plant =>
    ⟨85/100, 48/100, 950000, 15000, 35, 38, 354, 30, 0⟩
  | .wind_turbine =>
    ⟨42/100, 1, 1320000, 25000, 12, 0, 11, 25, 8/100⟩
  | .solar_pv =>
    ⟨28/100, 1, 980000, 18000, 8, 0, 41, 25, 15/100⟩
  | .lithium_battery =>
    ⟨95/100, 90/100, 1580000, 22000, 5, 0, 0, 15, 18/100⟩

/-- `self.start_year`. -/
def start_year : ℤ := 2025

/-- `self.end_year`. -/
def end_year : ℤ := 2050

/-- `self.demand_growth_rate` (2.3% annual growth). -/
def demand_growth_rate : ℚ := 23/1000

/-- A per-year technology cost snapshot (one entry of the dict built by
`calculate_technology_costs`). -/
structure TechCosts where
  capex : ℚ
  opex_fixed : ℚ
  opex_variable : ℚ
  fuel_cost : ℚ
  co2_intensity : ℚ

/-- Per-technology body of `calculate_technology_costs` (run_model.py
192-217): `capex = capex_2025 * (1 - learning_rate)^(year - start_year)`;
the remaining cost fields are copied from the parameter bundle. -/
def calculate_technology_costs (p : TechParams) (year : ℤ) : TechCosts :=
  let years_from_base := year - start_year
  let cost_reduction_factor := (1 - p.learning_rate) ^ years_from_base
  ⟨p.capex_2025 * cost_reduction_factor, p.opex_fixed, p.opex_variable,
    p.fuel_cost, p.co2_intensity⟩

/-- The full dict returned by `calculate_technology_costs(year)`: the
per-technology body applied to every entry of `self.technologies`. -/
def technology_costs_table (year : ℤ) : Tech → TechCosts :=
  fun t => calculate_technology_costs (technologies t) year

/-! ### Generation mix allocator (`_optimize_generation_mix`, run_model.py
419-458) -/

/-- A generation mix: generation by technology in MWh.  The source builds a
dict; the baseline dict has no `lithium_battery` key, embedded here as a
zero entry (absent keys contribute nothing to any sum the model takes and
`generation_mix.get(tech, 0)` reads them as 0). -/
structure GenerationMix where
  wind_turbine : ℚ
  solar_pv : ℚ
  lithium_battery : ℚ
  natural_gas_plant : ℚ

/-- Generation of one technology in a mix. -/
def genOf (m : GenerationMix) : Tech → ℚ
  | .natural_gas_plant => m.natural_gas_plant
  | .wind_turbine => m.wind_turbine
  | .solar_pv => m.solar_pv
  | .lithium_battery => m.lithium_battery

/-- `_get_renewable_target` (run_model.py 451-458). -/
def get_renewable_target (year : ℤ) : ℚ :=
  if year ≤ 2030 then 40/100
  else if year ≤ 2040 then 70/100
  else 85/100

/-- `_optimize_generation_mix` (run_model.py 419-449): sums the per-region
daily demands into the system demand, picks the year's renewable target,
and dispatches by the fixed proportions of the scenario variant
(`battery_storage` vs any other scenario name). -/
def optimize_generation_mix (scenario_name : String) (year : ℤ)
    (total_demand : List ℚ) : GenerationMix :=
  let system_demand := total_demand.sum
  let renewable_target := get_renewable_target year
  if scenario_name = "battery_storage" then
    { wind_turbine := system_demand * (4/10) * renewable_target
      solar_pv := system_demand * (3/10) * renewable_target
      lithium_battery := system_demand * (1/10)
      natural_gas_plant := system_demand * (1 - renewable_target * (7/10)) }
  else
    { wind_turbine := system_demand * (3/10) * renewable_target
      solar_pv := system_demand * (2/10) * renewable_target
      lithium_battery := 0
      natural_gas_plant := system_demand * (1 - renewable_target * (5/10)) }

/-- Sum of all generation values in a mix (`sum(generation_mix.values())`). -/
def mixSum (m : GenerationMix) : ℚ :=
  m.wind_turbine + m.solar_pv + m.lithium_battery + m.natural_gas_plant

/-! ### Emissions (`calculate_emissions` and `_calculate_renewable_share`,
run_model.py 219-253) -/

/-- The iteration order of the technology dict. -/
def techList : List Tech :=
  [.natural_gas_plant, .wind_turbine, .solar_pv, .lithium_battery]

/-- `_calculate_renewable_share` (run_model.py 248-253): wind plus solar
generation over total generation, 0 when the total is not positive. -/
def calculate_renewable_share (m : GenerationMix) : ℚ :=
  let renewable_gen := genOf m .wind_turbine + genOf m .solar_pv
  let total_gen := (techList.map (genOf m)).sum
  if 0 < total_gen then renewable_gen / total_gen else 0

/-- The result record of `calculate_emissions`. -/
structure EmissionsResult where
  total_emissions_tons : ℚ
  carbon_intensity_kg_mwh : ℚ
  emissions_by_tech : Tech → ℚ
  renewable_share : ℚ

/-- `calculate_emissions` (run_model.py 219-246): per-technology emissions
`generation * co2_intensity / 1000` (tons), their total, the carbon
intensity `total / total_generation` guarded to 0 when the total
generation is not positive and reported in kg/MWh, and the renewable
share. -/
def calculate_emissions (m : GenerationMix) : EmissionsResult :=
  let total_generation := (techList.map (genOf m)).sum
  let emissions_by_tech : Tech → ℚ :=
    fun t => genOf m t * (technologies t).co2_intensity / 1000
  let total_emissions := (techList.map emissions_by_tech).sum
  let carbon_intensity :=
    if 0 < total_generation then total_emissions / total_generation else 0
  ⟨total_emissions, carbon_intensity * 1000, emissions_by_tech,
    calculate_renewable_share m⟩

/-! ### Environmental progress (`_track_environmental_progress`,
run_model.py 477-494) -/

/-- Per-year body of `_track_environmental_progress` (run_model.py
484-491): `achieved_reduction = 1 - current/baseline` and
`on_track = achieved_reduction >= target_reduction * 0.9`. -/
def track_progress (baseline_emissions current_emissions target_reduction : ℚ) :
    ℚ × Bool :=
  let reduction_achieved := 1 - current_emissions / baseline_emissions
  (reduction_achieved, decide (target_reduction * (9/10) ≤ reduction_achieved))

/-! ### Scenario summary (`_calculate_scenario_summary`, run_model.py
460-475) -/

/-- The per-year inputs the summary reads from `annual_results[year]`:
the year's total emissions, its renewable share, and the per-region
peak demands from its demand analysis.  The list is ordered by ascending
year (dict insertion order in the source). -/
structure YearResult where
  emissions_total : ℚ
  renewable_share : ℚ
  regional_peaks : List ℚ

/-- Python's `max` over a list (raises on an empty list; the theorems about
it carry a nonemptiness hypothesis and the empty-list value is junk). -/
def pyMax : List ℚ → ℚ
  | [] => 0
  | x :: xs => xs.foldl max x

/-- The record returned by `_calculate_scenario_summary`. -/
structure SummaryMetrics where
  total_cumulative_emissions : ℚ
  average_renewable_share : ℚ
  peak_system_demand_2050 : ℚ
  demand_growth_factor : ℚ

/-- `_calculate_scenario_summary` (run_model.py 460-475): cumulative
emissions (sum across analyzed years), `np.mean` of the renewable shares,
`max` across analyzed years of the per-year sum of regional peak demands,
and the growth factor `(1+growth_rate)^(end_year-start_year)`. -/
def calculate_scenario_summary (growth_rate : ℚ) (sy ey : ℤ)
    (annual_results : List YearResult) : SummaryMetrics :=
  let total_emissions := (annual_results.map (·.emissions_total)).sum
  let avg_renewable_share :=
    (annual_results.map (·.renewable_share)).sum / (annual_results.length : ℚ)
  let peak := pyMax (annual_results.map (·.regional_peaks.sum))
  ⟨total_emissions, avg_renewable_share, peak,
    (1 + growth_rate) ^ (ey - sy)⟩

end EnergyModel

namespace MessageIXFinal

/-!
Embedding of `FinalMessageIXEnergyModel.extract_results`
(`scripts/messageix_final_working.py`, lines 188-328).

The solved scenario is external (ixmp/GAMS); each access to it may raise,
modelled with `Except Unit`.  A variable table is modelled as the list of
its rows (with the columns the extraction reads).  Python's try/except
blocks become matches on the `Except` values; the function is total, so no
error ever propagates out of `extract_results`.
-/

/-- One row of a solved-variable table, with the columns read by
`extract_results` (`node_loc`, `technology`, `year_vtg`/`year_act`,
`lvl`). -/
structure VarRow where
  node_loc : String
  technology : String
  year : ℤ
  lvl : ℚ

/-- The external solved scenario as seen by `extract_results`: each
accessor either returns its table or raises. -/
structure SolvedScenario where
  objVar : Except Unit (List ℚ)
  varListRes : Except Unit (List String)
  capNew : Except Unit (List VarRow)
  act : Except Unit (List VarRow)

/-- One dashboard data point (`capacity_data` / `generation_data`
entries). -/
structure DataPoint where
  region : String
  technology : String
  year : ℤ
  value : ℚ
deriving DecidableEq, Repr

/-- The result dict of `extract_results` (`cost_breakdown` as the
investment/operational/fuel triple). -/
structure ExtractResults where
  total_cost : ℚ
  capacity_data : List DataPoint
  generation_data : List DataPoint
  cost_breakdown : ℚ × ℚ × ℚ
  technology_mix : List (String × ℚ)
deriving DecidableEq, Repr

/-- The synthetic capacity formula of the fallback branch
(messageix_final_working.py 233-239): a linear ramp in the year, with a
hardcoded slope and intercept per technology. -/
def syntheticCap (tech : String) (year : ℤ) : ℚ :=
  if tech = "gas_plant" then 5/100 + ((year : ℚ) - 2025) * (1/100)
  else if tech = "wind_plant" then 3/100 + ((year : ℚ) - 2025) * (15/1000)
  else 2/100 + ((year : ℚ) - 2025) * (2/100)

/-- The synthetic generation formula of the fallback branch
(messageix_final_working.py 276-282). -/
def syntheticGen (tech : String) (year : ℤ) : ℚ :=
  if tech = "gas_plant" then 4/100 + ((year : ℚ) - 2025) * (5/1000)
  else if tech = "wind_plant" then 1/100 + ((year : ℚ) - 2025) * (8/1000)
  else 5/1000 + ((year : ℚ) - 2025) * (1/100)

/-- The region/technology/year triple loop of both fallback branches. -/
def syntheticPoints (formula : String → ℤ → ℚ) : List DataPoint :=
  (["Industrial", "Residential"].map fun region =>
    (["gas_plant", "wind_plant", "solar_plant"].map fun tech =>
      (([2025, 2030, 2040, 2050] : List ℤ).map fun year =>
        DataPoint.mk region tech year (formula tech year))).flatten).flatten

/-- The synthetic capacity data generated when `CAP_NEW` is absent from
the variable list. -/
def syntheticCapacityData : List DataPoint :=
  syntheticPoints syntheticCap

/-- The synthetic generation data generated when `ACT` is absent from the
variable list. -/
def syntheticGenerationData : List DataPoint :=
  syntheticPoints syntheticGen

/-- The variable list as seen after the inner `try` around `var_list()`
(messageix_final_working.py 203-207): an exception leaves it empty. -/
def effectiveVarList (s : SolvedScenario) : List String :=
  match s.varListRes with
  | .ok l => l
  | .error _ => []

/-- The capacity block (messageix_final_working.py 209-250): if `CAP_NEW`
is in the variable list, read it — an exception leaves `capacity_data` as
the empty list built before the `try`; otherwise generate the synthetic
rows. -/
def extractCapacityData (s : SolvedScenario) (variables_list : List String) :
    List DataPoint :=
  if "CAP_NEW" ∈ variables_list then
    match s.capNew with
    | .error _ => []
    | .ok rows => rows.map fun r => ⟨r.node_loc, r.technology, r.year, r.lvl⟩
  else
    syntheticCapacityData

/-- The activity block (messageix_final_working.py 253-293), identical in
shape to the capacity block. -/
def extractGenerationData (s : SolvedScenario) (variables_list : List String) :
    List DataPoint :=
  if "ACT" ∈ variables_list then
    match s.act with
    | .error _ => []
    | .ok rows => rows.map fun r => ⟨r.node_loc, r.technology, r.year, r.lvl⟩
  else
    syntheticGenerationData

/-- The technology-mix accumulation dict: add `v` to the entry of `t`,
inserting it at the end when absent. -/
def bumpTech (acc : List (String × ℚ)) (t : String) (v : ℚ) :
    List (String × ℚ) :=
  match acc with
  | [] => [(t, v)]
  | (t', v') :: rest =>
    if t' = t then (t', v' + v) :: rest else (t', v') :: bumpTech rest t v

/-- The technology mix summary (messageix_final_working.py 303-310). -/
def techMix (caps : List DataPoint) : List (String × ℚ) :=
  caps.foldl (fun acc e => bumpTech acc e.technology e.value) []

/-- Rounding to two decimals, modelling the `f"{value:.2f}"` formatting of
the objective value. -/
def round2 (q : ℚ) : ℚ :=
  (round (q * 100) : ℤ) / 100

/-- The hardcoded fallback of the outer `except` branch
(messageix_final_working.py 321-326). -/
def fallbackResults : ExtractResults :=
  { total_cost := 67679/100
    capacity_data := []
    generation_data := []
    cost_breakdown := (47375/100, 1692/10, 3384/100)
    technology_mix := [("gas_plant", 1/2), ("wind_plant", 3/10), ("solar_plant", 1/5)] }

/-- `extract_results` (messageix_final_working.py 188-328).  The only
statement inside the outer `try` that is not wrapped in an inner
`try`/`except` and can raise is `self.solved_scenario.var('OBJ')`; if it
raises, the outer `except` fills in `fallbackResults`.  Otherwise:
`total_cost` is the first `lvl` of `OBJ` (676.79 when the table is
empty), `var_list()` falls back to `[]` on exception, the capacity and
activity blocks run, and the cost breakdown and technology mix are
derived.  The function is total: no input makes it propagate an error. -/
def extract_results (s : SolvedScenario) : ExtractResults :=
  match s.objVar with
  | .error _ => fallbackResults
  | .ok obj_lvls =>
    let total_cost : ℚ :=
      match obj_lvls with
      | [] => 67679/100
      | v :: _ => round2 v
    let variables_list := effectiveVarList s
    let capacity_data := extractCapacityData s variables_list
    let generation_data := extractGenerationData s variables_list
    { total_cost := total_cost
      capacity_data := capacity_data
      generation_data := generation_data
      cost_breakdown :=
        (total_cost * (7/10), total_cost * (25/100), total_cost * (5/100))
      technology_mix := techMix capacity_data }

/-- A concrete solved scenario on which both solved-variable extractions
raise even though the tables are listed: `var_list()` returns
`["CAP_NEW", "ACT"]` but both `var` calls raise. -/
def failingScenario : SolvedScenario :=
  ⟨.ok [100], .ok ["CAP_NEW", "ACT"], .error (), .error ()⟩

end MessageIXFinal

namespace EnergyModel

/-! ## Theorems -/

/-- C1: for every year `y` and every non-negative total system demand `d`
(the sum of the per-region daily demands), with target `t = 0.40` if
`y ≤ 2030`, `t = 0.70` if `2030 < y ≤ 2040`, `t = 0.85` otherwise, the
generation mix allocator returns, in the baseline variant,
`wind = d*0.3*t`, `solar = d*0.2*t`, `gas = d*(1 - t*0.5)` (no storage
entry), and in the `battery_storage` variant `wind = d*0.4*t`,
`solar = d*0.3*t`, `storage = d*0.1`, `gas = d*(1 - t*0.7)`. -/
theorem generation_mix_allocator_formulas (year : ℤ) (total_demand : List ℚ)
    (_hd : 0 ≤ total_demand.sum) (t : ℚ)
    (ht : t = if year ≤ 2030 then (40 : ℚ)/100
              else if year ≤ 2040 then 70/100 else 85/100) :
    optimize_generation_mix "baseline" year total_demand =
      ⟨total_demand.sum * (3/10) * t, total_demand.sum * (2/10) * t, 0,
        total_demand.sum * (1 - t * (5/10))⟩ ∧
    optimize_generation_mix "battery_storage" year total_demand =
      ⟨total_demand.sum * (4/10) * t, total_demand.sum * (3/10) * t,
        total_demand.sum * (1/10), total_demand.sum * (1 - t * (7/10))⟩ := by
  subst ht
  constructor <;> simp [optimize_generation_mix, get_renewable_target]

/-- Witness for C1 at year 2025 and demand list `[10]`. -/
theorem generation_mix_allocator_formulas_witness :
    optimize_generation_mix "baseline" 2025 [10] =
      ⟨([10] : List ℚ).sum * (3/10) * (40/100),
        ([10] : List ℚ).sum * (2/10) * (40/100), 0,
        ([10] : List ℚ).sum * (1 - (40/100) * (5/10))⟩ ∧
    optimize_generation_mix "battery_storage" 2025 [10] =
      ⟨([10] : List ℚ).sum * (4/10) * (40/100),
        ([10] : List ℚ).sum * (3/10) * (40/100),
        ([10] : List ℚ).sum * (1/10),
        ([10] : List ℚ).sum * (1 - (40/100) * (7/10))⟩ :=
  generation_mix_allocator_formulas 2025 [10] (by norm_num) (40/100) (by norm_num)

/-- C2: for every technology parameter bundle and every year
`y ≥ start_year`, the cost model returns
`capex = capex_base * (1 - learning_rate)^(y - start_year)` (exactly, in
the rational embedding), and the opex, fuel-cost and CO2-intensity fields
unchanged from the bundle for every year. -/
theorem technology_cost_model_snapshot (p : TechParams) (year : ℤ) :
    (start_year ≤ year →
      (calculate_technology_costs p year).capex =
        p.capex_2025 * (1 - p.learning_rate) ^ (year - start_year).toNat) ∧
    (calculate_technology_costs p year).opex_fixed = p.opex_fixed ∧
    (calculate_technology_costs p year).opex_variable = p.opex_variable ∧
    (calculate_technology_costs p year).fuel_cost = p.fuel_cost ∧
    (calculate_technology_costs p year).co2_intensity = p.co2_intensity := by
  refine ⟨fun h => ?_, rfl, rfl, rfl, rfl⟩
  simp only [calculate_technology_costs]
  rw [← zpow_natCast, Int.toNat_of_nonneg (by omega)]

/-- Witness for C2 at the solar technology and year 2030. -/
theorem technology_cost_model_snapshot_witness :
    (calculate_technology_costs (technologies .solar_pv) 2030).capex =
      (technologies .solar_pv).capex_2025 *
        (1 - (technologies .solar_pv).learning_rate) ^ ((2030 : ℤ) - start_year).toNat ∧
    (calculate_technology_costs (technologies .solar_pv) 2030).opex_fixed =
      (technologies .solar_pv).opex_fixed :=
  ⟨(technology_cost_model_snapshot (technologies .solar_pv) 2030).1 (by decide),
    (technology_cost_model_snapshot (technologies .solar_pv) 2030).2.1⟩

/-- C3: for a generation mix whose values sum to 0 the emissions tracker
returns carbon intensity 0 and renewable share 0 (and, being a total
function, raises nothing); for a positive total it returns
`total_emissions / total_generation * 1000` and
`(wind + solar) / total_generation`. -/
theorem emissions_tracker_guards (m : GenerationMix) :
    ((techList.map (genOf m)).sum = 0 →
      (calculate_emissions m).carbon_intensity_kg_mwh = 0 ∧
      (calculate_emissions m).renewable_share = 0) ∧
    (0 < (techList.map (genOf m)).sum →
      (calculate_emissions m).carbon_intensity_kg_mwh =
        (calculate_emissions m).total_emissions_tons /
          (techList.map (genOf m)).sum * 1000 ∧
      (calculate_emissions m).renewable_share =
        (m.wind_turbine + m.solar_pv) / (techList.map (genOf m)).sum) := by
  constructor
  · intro h
    simp [calculate_emissions, calculate_renewable_share, h]
  · intro h
    simp [calculate_emissions, calculate_renewable_share, if_pos h, genOf]

/-- Witness for C3: the all-zero mix and the mix `(1, 2, 0, 3)`. -/
theorem emissions_tracker_guards_witness :
    ((calculate_emissions ⟨0, 0, 0, 0⟩).carbon_intensity_kg_mwh = 0 ∧
      (calculate_emissions ⟨0, 0, 0, 0⟩).renewable_share = 0) ∧
    ((calculate_emissions ⟨1, 2, 0, 3⟩).carbon_intensity_kg_mwh =
        (calculate_emissions ⟨1, 2, 0, 3⟩).total_emissions_tons /
          (techList.map (genOf ⟨1, 2, 0, 3⟩)).sum * 1000 ∧
      (calculate_emissions ⟨1, 2, 0, 3⟩).renewable_share =
        ((1 : ℚ) + 2) / (techList.map (genOf ⟨1, 2, 0, 3⟩)).sum) :=
  ⟨(emissions_tracker_guards ⟨0, 0, 0, 0⟩).1 (by simp [techList, genOf]),
    (emissions_tracker_guards ⟨1, 2, 0, 3⟩).2 (by norm_num [techList, genOf])⟩

/-- C4: for every positive baseline `b`, current emissions `c` and target
`t`, the progress tracker computes `achieved = 1 - c/b` and
`on_track = (achieved ≥ t*0.9)`; at `b = 1000`, `c = 600`, `t = 0.5` it
yields achieved reduction `0.40` and `on_track = false`. -/
theorem progress_tracker_formulas (b c t : ℚ) (_hb : 0 < b) :
    (track_progress b c t).1 = 1 - c / b ∧
    ((track_progress b c t).2 = true ↔ t * (9/10) ≤ 1 - c / b) ∧
    track_progress 1000 600 (1/2) = (2/5, false) := by
  refine ⟨rfl, ?_, ?_⟩
  · simp [track_progress]
  · simp only [track_progress, Prod.ext_iff]
    norm_num

/-- Witness for C4 at the spec's own example. -/
theorem progress_tracker_formulas_witness :
    (track_progress 1000 600 (1/2)).1 = 1 - 600 / 1000 ∧
    ((track_progress 1000 600 (1/2)).2 = true ↔
      (1/2 : ℚ) * (9/10) ≤ 1 - 600 / 1000) ∧
    track_progress 1000 600 (1/2) = (2/5, false) :=
  progress_tracker_formulas 1000 600 (1/2) (by norm_num)

/-- C10: the baseline mix sums exactly to the system demand `d` (since
`0.3t + 0.2t + (1 - 0.5t) = 1`), the storage mix sums exactly to `1.1*d`
(since `0.4t + 0.3t + 0.1 + (1 - 0.7t) = 1.1`), so for nonzero demand
only the storage variant fails to conserve allocated energy against
demand. -/
theorem mix_sum_conservation (year : ℤ) (total_demand : List ℚ) :
    mixSum (optimize_generation_mix "baseline" year total_demand) =
      total_demand.sum ∧
    mixSum (optimize_generation_mix "battery_storage" year total_demand) =
      (11/10) * total_demand.sum ∧
    (total_demand.sum ≠ 0 →
      mixSum (optimize_generation_mix "battery_storage" year total_demand) ≠
        total_demand.sum) := by
  have hbase : optimize_generation_mix "baseline" year total_demand =
      ⟨total_demand.sum * (3/10) * get_renewable_target year,
        total_demand.sum * (2/10) * get_renewable_target year, 0,
        total_demand.sum * (1 - get_renewable_target year * (5/10))⟩ := rfl
  have hstore : optimize_generation_mix "battery_storage" year total_demand =
      ⟨total_demand.sum * (4/10) * get_renewable_target year,
        total_demand.sum * (3/10) * get_renewable_target year,
        total_demand.sum * (1/10),
        total_demand.sum * (1 - get_renewable_target year * (7/10))⟩ := rfl
  refine ⟨?_, ?_, ?_⟩
  · rw [hbase]
    simp only [mixSum]
    ring
  · rw [hstore]
    simp only [mixSum]
    ring
  · intro hd hEq
    apply hd
    rw [hstore] at hEq
    simp only [mixSum] at hEq
    ring_nf at hEq
    linarith

/-- Witness for C10 at year 2025 and demand list `[5]`. -/
theorem mix_sum_conservation_witness :
    mixSum (optimize_generation_mix "battery_storage" 2025 [5]) ≠
      ([5] : List ℚ).sum :=
  (mix_sum_conservation 2025 [5]).2.2 (by norm_num)

/-- The starting accumulator is a lower bound of a `max`-fold. -/
theorem le_foldl_max (a : ℚ) (l : List ℚ) : a ≤ l.foldl max a := by
  induction l generalizing a with
  | nil => exact le_refl a
  | cons b t ih =>
    calc a ≤ max a b := le_max_left a b
    _ ≤ t.foldl max (max a b) := ih (max a b)

/-- Every list element is a lower bound of a `max`-fold over the list. -/
theorem mem_le_foldl_max (a : ℚ) (l : List ℚ) : ∀ x ∈ l, x ≤ l.foldl max a := by
  induction l generalizing a with
  | nil => intro x hx; cases hx
  | cons b t ih =>
    intro x hx
    rcases List.mem_cons.mp hx with rfl | hx
    · exact le_trans (le_max_right a x) (le_foldl_max (max a x) t)
    · exact ih (max a b) x hx

/-- A `max`-fold returns its accumulator or a list element. -/
theorem foldl_max_mem (a : ℚ) (l : List ℚ) :
    l.foldl max a = a ∨ l.foldl max a ∈ l := by
  induction l generalizing a with
  | nil => exact Or.inl rfl
  | cons b t ih =>
    have hstep : (b :: t).foldl max a = t.foldl max (max a b) := rfl
    rcases ih (max a b) with h | h
    · rcases max_choice a b with hab | hab
      · exact Or.inl (by rw [hstep, h, hab])
      · exact Or.inr (by rw [hstep, h, hab]; exact List.mem_cons_self b t)
    · exact Or.inr (List.mem_cons_of_mem b (by rw [hstep]; exact h))

/-- Python's `max` of a nonempty list is an element and an upper bound. -/
theorem pyMax_spec (l : List ℚ) (h : l ≠ []) :
    pyMax l ∈ l ∧ ∀ x ∈ l, x ≤ pyMax l := by
  match l with
  | [] => exact absurd rfl h
  | x :: xs =>
    have hpy : pyMax (x :: xs) = xs.foldl max x := rfl
    constructor
    · rcases foldl_max_mem x xs with h1 | h1
      · rw [hpy, h1]; exact List.mem_cons_self x xs
      · rw [hpy]; exact List.mem_cons_of_mem x h1
    · intro y hy
      rcases List.mem_cons.mp hy with rfl | hy
      · rw [hpy]; exact le_foldl_max y xs
      · rw [hpy]; exact mem_le_foldl_max x xs y hy

/-- Counterexample for C5: on a run whose regional peak demands decrease
over time, the reported peak system demand is the maximum across all
analyzed years (here 350, from the first year), not the final year's sum
of regional peaks (here 180). -/
theorem scenario_summary_peak_counterexample :
    (calculate_scenario_summary (23/1000) 2025 2040
        [⟨10, 1/2, [200, 150]⟩, ⟨20, 1/4, [100, 80]⟩]).peak_system_demand_2050 =
      350 ∧
    (calculate_scenario_summary (23/1000) 2025 2040
        [⟨10, 1/2, [200, 150]⟩, ⟨20, 1/4, [100, 80]⟩]).peak_system_demand_2050 ≠
      ([100, 80] : List ℚ).sum := by
  have hpk : (calculate_scenario_summary (23/1000) 2025 2040
      [⟨10, 1/2, [200, 150]⟩, ⟨20, 1/4, [100, 80]⟩]).peak_system_demand_2050 =
      pyMax [(200 : ℚ) + (150 + 0), 100 + (80 + 0)] := rfl
  rw [hpk]
  constructor
  · simp [pyMax]
    norm_num
  · simp [pyMax]
    norm_num

/-- C5 (amended): the scenario summary's cumulative emissions are the sum
of the per-year totals, its average renewable share is the arithmetic
mean of the per-year shares, its demand growth factor is
`(1+growth_rate)^(end_year-start_year)`, and its reported peak system
demand is the MAXIMUM over all analyzed years of the per-year sum of
regional peak demands (the final year's value only when that sum is
largest in the final year) — the source computes `max(...)` across
years, not the final year's entry. -/
theorem scenario_summary_metrics (growth_rate : ℚ) (sy ey : ℤ)
    (annual_results : List YearResult) (h : annual_results ≠ []) :
    (calculate_scenario_summary growth_rate sy ey annual_results).total_cumulative_emissions =
      (annual_results.map (·.emissions_total)).sum ∧
    (calculate_scenario_summary growth_rate sy ey annual_results).average_renewable_share =
      (annual_results.map (·.renewable_share)).sum / (annual_results.length : ℚ) ∧
    ((calculate_scenario_summary growth_rate sy ey annual_results).peak_system_demand_2050 ∈
        annual_results.map (·.regional_peaks.sum) ∧
      ∀ x ∈ annual_results.map (·.regional_peaks.sum),
        x ≤ (calculate_scenario_summary growth_rate sy ey annual_results).peak_system_demand_2050) ∧
    (calculate_scenario_summary growth_rate sy ey annual_results).demand_growth_factor =
      (1 + growth_rate) ^ (ey - sy) := by
  refine ⟨rfl, rfl, ?_, rfl⟩
  exact pyMax_spec _ (by simpa using h)

/-- Witness for C5 (amended) on a one-year run. -/
theorem scenario_summary_metrics_witness :
    (calculate_scenario_summary 0 2025 2025 [⟨1, 1, [2]⟩]).total_cumulative_emissions =
      (([⟨1, 1, [2]⟩] : List YearResult).map (·.emissions_total)).sum ∧
    (calculate_scenario_summary 0 2025 2025 [⟨1, 1, [2]⟩]).average_renewable_share =
      (([⟨1, 1, [2]⟩] : List YearResult).map (·.renewable_share)).sum /
        (([⟨1, 1, [2]⟩] : List YearResult).length : ℚ) ∧
    ((calculate_scenario_summary 0 2025 2025 [⟨1, 1, [2]⟩]).peak_system_demand_2050 ∈
        ([⟨1, 1, [2]⟩] : List YearResult).map (·.regional_peaks.sum) ∧
      ∀ x ∈ ([⟨1, 1, [2]⟩] : List YearResult).map (·.regional_peaks.sum),
        x ≤ (calculate_scenario_summary 0 2025 2025 [⟨1, 1, [2]⟩]).peak_system_demand_2050) ∧
    (calculate_scenario_summary 0 2025 2025 [⟨1, 1, [2]⟩]).demand_growth_factor =
      (1 + 0 : ℚ) ^ ((2025 : ℤ) - 2025) :=
  scenario_summary_metrics 0 2025 2025 [⟨1, 1, [2]⟩] (List.cons_ne_nil _ _)

/-- The per-hour wind value is clamped into [0.05, 0.8] whatever the
noise. -/
theorem windHourValue_bounds (hour : ℕ) (noise : ℚ) :
    5/100 ≤ windHourValue hour noise ∧ windHourValue hour noise ≤ 8/10 := by
  constructor
  · simp only [windHourValue]
    exact le_max_right _ _
  · simp only [windHourValue]
    exact max_le (min_le_right _ _) (by norm_num)

/-- The per-hour solar value is clamped into [0, 0.9] whatever the
noise. -/
theorem solarHourValue_bounds (hour : ℕ) (noise : ℚ) :
    0 ≤ solarHourValue hour noise ∧ solarHourValue hour noise ≤ 9/10 := by
  constructor
  · simp only [solarHourValue]
    exact le_max_right _ _
  · simp only [solarHourValue]
    exact max_le (min_le_right _ _) (by norm_num)

/-- Every element of the wind loop's output is a per-hour wind value. -/
theorem windLoop_mem_bounds (hs : List ℕ) (g : RNG) :
    ∀ x ∈ (windLoop g hs).1, 5/100 ≤ x ∧ x ≤ 8/10 := by
  induction hs generalizing g with
  | nil => intro x hx; simp [windLoop] at hx
  | cons h t ih =>
    intro x hx
    simp only [windLoop] at hx
    rcases List.mem_cons.mp hx with rfl | hx
    · exact windHourValue_bounds h _
    · exact ih _ x hx

/-- Every element of the solar loop's output is a per-hour solar value. -/
theorem solarLoop_mem_bounds (hs : List ℕ) (g : RNG) :
    ∀ x ∈ (solarLoop g hs).1, 0 ≤ x ∧ x ≤ 9/10 := by
  induction hs generalizing g with
  | nil => intro x hx; simp [solarLoop] at hx
  | cons h t ih =>
    intro x hx
    by_cases hd : 6 ≤ h ∧ h ≤ 18
    · simp only [solarLoop, if_pos hd] at hx
      rcases List.mem_cons.mp hx with rfl | hx
      · exact solarHourValue_bounds h _
      · exact ih _ x hx
    · simp only [solarLoop, if_neg hd] at hx
      rcases List.mem_cons.mp hx with rfl | hx
      · exact solarHourValue_bounds h _
      · exact ih _ x hx

/-- C6: for every seed (modelled by an arbitrary draw stream) and every
incoming RNG state, every generated wind availability value lies in
[0.05, 0.8] and every generated solar availability value lies in
[0, 0.9]. -/
theorem renewable_profile_ranges (stream : ℕ → ℚ) (g0 : RNG) :
    (∀ x ∈ (generate_renewable_profiles stream g0).1,
      5/100 ≤ x ∧ x ≤ 8/10) ∧
    (∀ x ∈ (generate_renewable_profiles stream g0).2,
      0 ≤ x ∧ x ≤ 9/10) := by
  constructor
  · intro x hx
    exact windLoop_mem_bounds (List.range 24) (seedReset stream g0) x hx
  · intro x hx
    exact solarLoop_mem_bounds (List.range 24) _ x hx

/-- Witness for C6: the first wind value (0.4) and a solar night value (0)
of the zero-noise stream. -/
theorem renewable_profile_ranges_witness :
    ((5 : ℚ)/100 ≤ 2/5 ∧ (2 : ℚ)/5 ≤ 8/10) ∧
    ((0 : ℚ) ≤ 0 ∧ (0 : ℚ) ≤ 9/10) :=
  ⟨(renewable_profile_ranges (fun _ => 0) ⟨fun _ => 0, 0⟩).1 (2/5)
      (by norm_num [generate_renewable_profiles, seedReset, windLoop, normal,
        windHourValue, List.range_succ]),
    (renewable_profile_ranges (fun _ => 0) ⟨fun _ => 0, 0⟩).2 0
      (by norm_num [generate_renewable_profiles, seedReset, windLoop, solarLoop,
        normal, windHourValue, solarHourValue, List.range_succ])⟩

/-- Indexing the solar loop's output: position `i` holds the per-hour
solar value of the `i`-th hour of the hour list (for some noise). -/
theorem solarLoop_getD (hs : List ℕ) (g : RNG) (i : ℕ) (hi : i < hs.length) :
    ∃ n, ((solarLoop g hs).1).getD i 0 = solarHourValue (hs.getD i 0) n := by
  induction hs generalizing g i with
  | nil => simp at hi
  | cons h t ih =>
    by_cases hd : 6 ≤ h ∧ h ≤ 18
    · cases i with
      | zero =>
        exact ⟨(normal 0 (2/10) g).1, by simp [solarLoop, if_pos hd]⟩
      | succ j =>
        have hj : j < t.length := by simpa using hi
        obtain ⟨n, hn⟩ := ih (normal 0 (2/10) g).2 j hj
        exact ⟨n, by simpa [solarLoop, if_pos hd] using hn⟩
    · cases i with
      | zero =>
        exact ⟨0, by simp [solarLoop, if_neg hd]⟩
      | succ j =>
        have hj : j < t.length := by simpa using hi
        obtain ⟨n, hn⟩ := ih g j hj
        exact ⟨n, by simpa [solarLoop, if_neg hd] using hn⟩

/-- Outside the daylight condition, and at its zero-irradiance boundary
hour 18, the per-hour solar value is exactly 0 for every noise. -/
theorem solarHourValue_eq_zero (h : ℕ) (n : ℚ) (hout : h < 6 ∨ 18 ≤ h) :
    solarHourValue h n = 0 := by
  rcases hout with h6 | h18
  · have hc : ¬(6 ≤ h ∧ h ≤ 18) := by omega
    simp [solarHourValue, hc]
  · rcases Nat.eq_or_lt_of_le h18 with h18' | hgt
    · subst h18'
      have habs : |(18 : ℚ) - 12| = 6 := by
        rw [show (18 : ℚ) - 12 = 6 by norm_num]
        exact abs_of_nonneg (by norm_num)
      have hc : 6 ≤ 18 ∧ 18 ≤ 18 := by omega
      simp only [solarHourValue, if_pos hc]
      push_cast
      rw [habs]
      norm_num
    · have hc : ¬(6 ≤ h ∧ h ≤ 18) := by omega
      simp [solarHourValue, hc]

/-- C7: for every seed, every incoming RNG state and every hour `h < 24`
outside [6, 18), the generated solar availability value at hour `h` is
exactly 0 (hours 19-23 and 0-5 fall in the night branch; hour 18 is in
the source's daylight branch but its parabolic irradiance is exactly 0
there). -/
theorem solar_zero_outside_daylight (stream : ℕ → ℚ) (g0 : RNG) (h : ℕ)
    (h24 : h < 24) (hout : h < 6 ∨ 18 ≤ h) :
    ((generate_renewable_profiles stream g0).2).getD h 0 = 0 := by
  have hlen : h < (List.range 24).length := by simpa using h24
  obtain ⟨n, hn⟩ := solarLoop_getD (List.range 24)
    (windLoop (seedReset stream g0) (List.range 24)).2 h hlen
  have hrange : (List.range 24).getD h 0 = h := by
    rw [List.getD_eq_getElem _ _ hlen]
    exact List.getElem_range _ _
  have hprof : (generate_renewable_profiles stream g0).2 =
      (solarLoop (windLoop (seedReset stream g0) (List.range 24)).2
        (List.range 24)).1 := rfl
  rw [hprof, hn, hrange]
  exact solarHourValue_eq_zero h n hout

/-- Witness for C7 at hour 20 of the zero-noise stream. -/
theorem solar_zero_outside_daylight_witness :
    ((generate_renewable_profiles (fun _ => 0) ⟨fun _ => 0, 0⟩).2).getD 20 0 = 0 :=
  solar_zero_outside_daylight (fun _ => 0) ⟨fun _ => 0, 0⟩ 20 (by norm_num)
    (Or.inr (by norm_num))

/-- C8: both generators re-seed the global RNG before drawing
(`np.random.seed(42)`), so for every fixed configuration and every seed
stream the outputs are identical across two runs whatever the incoming
RNG state — the two-run determinism the spec requires. -/
theorem profile_generator_determinism (years : List ℤ)
    (growth_rate ind0 res0 : ℚ) (sy : ℤ) (stream : ℕ → ℚ) (g1 g2 : RNG) :
    generate_demand_patterns years growth_rate ind0 res0 sy stream g1 =
      generate_demand_patterns years growth_rate ind0 res0 sy stream g2 ∧
    generate_renewable_profiles stream g1 =
      generate_renewable_profiles stream g2 :=
  ⟨rfl, rfl⟩

end EnergyModel

namespace MessageIXFinal

/-- C9 (amended): `extract_results` is total — it returns a complete
result structure for every solver outcome, and no error propagates.  When
the objective table is readable, a table absent from the variable list is
replaced by the deterministic synthetic placeholder data (hardcoded
linear ramps local to `extract_results`); when a listed table's
extraction raises, the corresponding data list is left empty rather than
filled with placeholders. -/
theorem extract_results_fallbacks (s : SolvedScenario) (l : List ℚ)
    (hobj : s.objVar = .ok l) :
    ("CAP_NEW" ∉ effectiveVarList s →
      (extract_results s).capacity_data = syntheticCapacityData) ∧
    (∀ e, "CAP_NEW" ∈ effectiveVarList s → s.capNew = .error e →
      (extract_results s).capacity_data = []) ∧
    ("ACT" ∉ effectiveVarList s →
      (extract_results s).generation_data = syntheticGenerationData) ∧
    (∀ e, "ACT" ∈ effectiveVarList s → s.act = .error e →
      (extract_results s).generation_data = []) := by
  refine ⟨fun hc => ?_, fun e hc he => ?_, fun hc => ?_, fun e hc he => ?_⟩
  · simp [extract_results, hobj, extractCapacityData, if_neg hc]
  · simp [extract_results, hobj, extractCapacityData, if_pos hc, he]
  · simp [extract_results, hobj, extractGenerationData, if_neg hc]
  · simp [extract_results, hobj, extractGenerationData, if_pos hc, he]

/-- Witness for C9 (amended): a solved scenario whose variable list is
empty gets the full synthetic placeholder data. -/
theorem extract_results_fallbacks_witness :
    (extract_results ⟨.ok [1], .ok [], .ok [], .ok []⟩).capacity_data =
      syntheticCapacityData ∧
    (extract_results ⟨.ok [1], .ok [], .ok [], .ok []⟩).generation_data =
      syntheticGenerationData :=
  ⟨(extract_results_fallbacks ⟨.ok [1], .ok [], .ok [], .ok []⟩ [1] rfl).1
      (by simp [effectiveVarList]),
    (extract_results_fallbacks ⟨.ok [1], .ok [], .ok [], .ok []⟩ [1] rfl).2.2.1
      (by simp [effectiveVarList])⟩

/-- Counterexample for C9: on a scenario whose `CAP_NEW` extraction
raises even though the table is listed, the capacity data is left empty,
not substituted with synthetic placeholders; moreover the synthetic
generation values are not producible by the generation-mix formulas of
the scenario model (no demand and no target give wind 0.01 together with
solar 0.005 in either variant), so the placeholders are not "generated by
the same formulas" as the mix allocator. -/
theorem extract_results_counterexample :
    (extract_results failingScenario).capacity_data ≠ syntheticCapacityData ∧
    (¬∃ (y : ℤ) (demand : List ℚ),
      syntheticGen "wind_plant" 2025 =
        (EnergyModel.optimize_generation_mix "baseline" y demand).wind_turbine ∧
      syntheticGen "solar_plant" 2025 =
        (EnergyModel.optimize_generation_mix "baseline" y demand).solar_pv) ∧
    (¬∃ (y : ℤ) (demand : List ℚ),
      syntheticGen "wind_plant" 2025 =
        (EnergyModel.optimize_generation_mix "battery_storage" y demand).wind_turbine ∧
      syntheticGen "solar_plant" 2025 =
        (EnergyModel.optimize_generation_mix "battery_storage" y demand).solar_pv) := by
  refine ⟨?_, ?_, ?_⟩
  · have hcap : (extract_results failingScenario).capacity_data = [] := by
      simp [extract_results, failingScenario, extractCapacityData, effectiveVarList]
    rw [hcap]
    simp [syntheticCapacityData, syntheticPoints]
  · rintro ⟨y, demand, h1, h2⟩
    have hwind : (EnergyModel.optimize_generation_mix "baseline" y demand).wind_turbine =
        demand.sum * (3/10) * EnergyModel.get_renewable_target y := rfl
    have hsolar : (EnergyModel.optimize_generation_mix "baseline" y demand).solar_pv =
        demand.sum * (2/10) * EnergyModel.get_renewable_target y := rfl
    rw [hwind] at h1
    rw [hsolar] at h2
    simp [syntheticGen] at h1 h2
    ring_nf at h1 h2
    linarith
  · rintro ⟨y, demand, h1, h2⟩
    have hwind : (EnergyModel.optimize_generation_mix "battery_storage" y demand).wind_turbine =
        demand.sum * (4/10) * EnergyModel.get_renewable_target y := rfl
    have hsolar : (EnergyModel.optimize_generation_mix "battery_storage" y demand).solar_pv =
        demand.sum * (3/10) * EnergyModel.get_renewable_target y := rfl
    rw [hwind] at h1
    rw [hsolar] at h2
    simp [syntheticGen] at h1 h2
    ring_nf at h1 h2
    linarith

end MessageIXFinal

